import Mathlib

/-
  Verification development for the metrics ingestion service
  (src/cloud_ingestion/server.py).

  The storage/query/retention engine is shallowly embedded:
  * Python/pydantic scalar values become ℚ (percent fields, REAL columns)
    and ℤ (size/count fields, INTEGER columns).
  * Server clock instants (datetime.utcnow, sqlite CURRENT_TIMESTAMP) become
    ℤ seconds; timedelta(hours=h) is h*3600 and timedelta(days=d) is d*86400.
  * The sqlite metrics table becomes a list of rows in insertion order plus
    the AUTOINCREMENT counter.
  * Each database method's try/except boundary is embedded by a `fault`
    flag: `fault = true` means the underlying connection raised, and the
    method returns exactly what its except-branch returns in the source.
-/

namespace Metrics

/-! ## Model of `datetime.fromisoformat`

`SystemMetrics.validate_timestamp` calls
`datetime.fromisoformat(v.replace('Z', '+00:00'))` and accepts iff no
`ValueError` is raised.  `fromisoformat` is a Python library function;
it is modelled here from its documentation: it accepts
`YYYY-MM-DD[*HH[:MM[:SS[.fff...]]][(+|-)HH:MM[:SS[.fff...]]]]`
(the date-time separator is any single character, the offset must be
smaller than 24 hours).  The parser returns `some tz` on success, where
`tz` records whether an explicit UTC offset was present, and `none` on
failure. -/

/-- Read exactly `n` decimal digits, accumulating into `acc`. -/
def readDigitsAux : Nat → Nat → List Char → Option (Nat × List Char)
  | 0, acc, cs => some (acc, cs)
  | Nat.succ n, acc, c :: cs =>
      if c.isDigit then readDigitsAux n (10 * acc + (c.toNat - 48)) cs else none
  | Nat.succ _, _, [] => none

/-- Consume a single expected character. -/
def expectChar (c : Char) : List Char → Option (List Char)
  | x :: xs => if x = c then some xs else none
  | [] => none

def isLeapYear (y : Nat) : Bool :=
  (y % 4 == 0 && y % 100 != 0) || y % 400 == 0

def daysInMonth (y m : Nat) : Nat :=
  if m = 2 then (if isLeapYear y then 29 else 28)
  else if m = 4 ∨ m = 6 ∨ m = 9 ∨ m = 11 then 30
  else 31

/-- One or more fractional digits. -/
def parseFracDigits (cs : List Char) : Option (List Char) :=
  let digs := cs.takeWhile Char.isDigit
  if digs.isEmpty then none else some (cs.dropWhile Char.isDigit)

/-- Optional fractional part after seconds. -/
def parseSecondFrac : List Char → Option (List Char)
  | '.' :: cs => parseFracDigits cs
  | cs => some cs

/-- Optional UTC offset `(+|-)HH:MM[:SS[.fff...]]`; must consume the rest. -/
def parseOffsetPart : List Char → Option Bool
  | [] => some false
  | c :: cs =>
    if c = '+' ∨ c = '-' then
      (readDigitsAux 2 0 cs).bind fun p1 =>
      if 24 ≤ p1.1 then none else
      (expectChar ':' p1.2).bind fun r2 =>
      (readDigitsAux 2 0 r2).bind fun p2 =>
      if 60 ≤ p2.1 then none else
      match p2.2 with
      | [] => some true
      | ':' :: r4 =>
          (readDigitsAux 2 0 r4).bind fun p3 =>
          if 60 ≤ p3.1 then none else
          (parseSecondFrac p3.2).bind fun r5 =>
          if r5.isEmpty then some true else none
      | _ => none
    else none

/-- Optional time-of-day part (preceded by any one separator character),
then the optional offset. -/
def parseTimePart : List Char → Option Bool
  | [] => some false
  | _ :: cs =>
    (readDigitsAux 2 0 cs).bind fun p1 =>
    if 24 ≤ p1.1 then none else
    match p1.2 with
    | ':' :: r2 =>
      (readDigitsAux 2 0 r2).bind fun p2 =>
      if 60 ≤ p2.1 then none else
      match p2.2 with
      | ':' :: r4 =>
        (readDigitsAux 2 0 r4).bind fun p3 =>
        if 60 ≤ p3.1 then none else
        (parseSecondFrac p3.2).bind parseOffsetPart
      | r3 => parseOffsetPart r3
    | r1 => parseOffsetPart r1

/-- Date `YYYY-MM-DD`, then the optional time part. -/
def parseIsoChars (cs : List Char) : Option Bool :=
  (readDigitsAux 4 0 cs).bind fun py =>
  if py.1 = 0 then none else
  (expectChar '-' py.2).bind fun r2 =>
  (readDigitsAux 2 0 r2).bind fun pm =>
  if pm.1 < 1 ∨ 12 < pm.1 then none else
  (expectChar '-' pm.2).bind fun r4 =>
  (readDigitsAux 2 0 r4).bind fun pd =>
  if pd.1 < 1 ∨ daysInMonth py.1 pm.1 < pd.1 then none else
  parseTimePart pd.2

/-- Model of `v.replace('Z', '+00:00')` on the underlying characters: the pattern
is the single character `Z`, so the replacement is char-wise. -/
def replaceZ : List Char → List Char
  | [] => []
  | 'Z' :: cs => '+' :: '0' :: '0' :: ':' :: '0' :: '0' :: replaceZ cs
  | c :: cs => c :: replaceZ cs

/-- The validator `SystemMetrics.validate_timestamp` (server.py:156-162): the value is
accepted iff `datetime.fromisoformat(v.replace('Z', '+00:00'))` parses. -/
def validate_timestamp (v : String) : Bool :=
  (parseIsoChars (replaceZ v.data)).isSome

/-- Spec-side notion (§3): the string carries an explicit time zone, i.e.
a trailing UTC offset, or a `Z` designator (which the source normalizes
to `+00:00`). -/
def hasExplicitZoneSpec (s : String) : Bool :=
  s.data.contains 'Z' || (parseIsoChars (replaceZ s.data)).getD false

/-! ## Typed data model (the pydantic models, server.py:99-166) -/

structure CPUMetrics where
  percent : ℚ
  count : ℤ
  count_logical : ℤ
  load_avg : Option (List ℚ)
deriving DecidableEq

structure MemoryMetrics where
  total : ℤ
  available : ℤ
  percent : ℚ
  used : ℤ
  free : ℤ
  buffers : ℤ
  cached : ℤ
deriving DecidableEq

structure SwapMetrics where
  total : ℤ
  used : ℤ
  free : ℤ
  percent : ℚ
deriving DecidableEq

structure DiskMetrics where
  device : String
  mountpoint : String
  fstype : String
  total : ℤ
  used : ℤ
  free : ℤ
  percent : ℚ
deriving DecidableEq

structure NetworkMetrics where
  bytes_sent : ℤ
  bytes_recv : ℤ
  packets_sent : ℤ
  packets_recv : ℤ
  errin : ℤ
  errout : ℤ
  dropin : ℤ
  dropout : ℤ
deriving DecidableEq

structure ProcessMetrics where
  pid : ℤ
  name : String
  cpu_percent : ℚ
  memory_percent : ℚ
deriving DecidableEq

structure SystemMetrics where
  timestamp : String
  hostname : String
  cpu : CPUMetrics
  memory : MemoryMetrics
  swap : SwapMetrics
  disk : List DiskMetrics
  network : Option NetworkMetrics
  top_processes : Option (List ProcessMetrics)
  error : Option String
deriving DecidableEq

structure MetricsPayload where
  hostname : String
  metrics : SystemMetrics
deriving DecidableEq

/-! ## Wire-level candidates and validation

FastAPI hands the request body to pydantic, which checks required fields,
the declared `Field` bounds and the custom timestamp validator, collecting
an error location for every violated field (pydantic reports all failures,
not just the first).  A candidate is modelled with every wire field
optional; validation returns the list of violated field locations
(empty = accepted). -/

structure RawCPU where
  percent : Option ℚ
  count : Option ℤ
  count_logical : Option ℤ
  load_avg : Option (List ℚ)
deriving DecidableEq

structure RawMemory where
  total : Option ℤ
  available : Option ℤ
  percent : Option ℚ
  used : Option ℤ
  free : Option ℤ
  buffers : Option ℤ
  cached : Option ℤ
deriving DecidableEq

structure RawSwap where
  total : Option ℤ
  used : Option ℤ
  free : Option ℤ
  percent : Option ℚ
deriving DecidableEq

structure RawDisk where
  device : Option String
  mountpoint : Option String
  fstype : Option String
  total : Option ℤ
  used : Option ℤ
  free : Option ℤ
  percent : Option ℚ
deriving DecidableEq

structure RawNetwork where
  bytes_sent : Option ℤ
  bytes_recv : Option ℤ
  packets_sent : Option ℤ
  packets_recv : Option ℤ
  errin : Option ℤ
  errout : Option ℤ
  dropin : Option ℤ
  dropout : Option ℤ
deriving DecidableEq

structure RawProcess where
  pid : Option ℤ
  name : Option String
  cpu_percent : Option ℚ
  memory_percent : Option ℚ
deriving DecidableEq

structure RawSystemMetrics where
  timestamp : Option String
  hostname : Option String
  cpu : Option RawCPU
  memory : Option RawMemory
  swap : Option RawSwap
  disk : Option (List RawDisk)
  network : Option RawNetwork
  top_processes : Option (List RawProcess)
  error : Option String
deriving DecidableEq

structure RawPayload where
  hostname : Option String
  metrics : Option RawSystemMetrics
deriving DecidableEq

/-- A required field: missing, or present but failing its bound, yields
its location. -/
def fieldReq {α : Type} (name : String) (v : Option α) (ok : α → Bool) :
    List String :=
  match v with
  | none => [name]
  | some x => if ok x then [] else [name]

/-- An optional field with a default: only a present, out-of-bounds value
yields its location. -/
def fieldOpt {α : Type} (name : String) (v : Option α) (ok : α → Bool) :
    List String :=
  match v with
  | none => []
  | some x => if ok x then [] else [name]

def pctOk (q : ℚ) : Bool := decide (0 ≤ q) && decide (q ≤ 100)
def nonnegOk (x : ℤ) : Bool := decide (0 ≤ x)
def posOk (x : ℤ) : Bool := decide (0 < x)

def cpuErrors (c : RawCPU) : List String :=
  fieldReq "metrics.cpu.percent" c.percent pctOk ++
  fieldReq "metrics.cpu.count" c.count posOk ++
  fieldReq "metrics.cpu.count_logical" c.count_logical posOk

def memoryErrors (m : RawMemory) : List String :=
  fieldReq "metrics.memory.total" m.total posOk ++
  fieldReq "metrics.memory.available" m.available nonnegOk ++
  fieldReq "metrics.memory.percent" m.percent pctOk ++
  fieldReq "metrics.memory.used" m.used nonnegOk ++
  fieldReq "metrics.memory.free" m.free nonnegOk ++
  fieldOpt "metrics.memory.buffers" m.buffers nonnegOk ++
  fieldOpt "metrics.memory.cached" m.cached nonnegOk

def swapErrors (s : RawSwap) : List String :=
  fieldReq "metrics.swap.total" s.total nonnegOk ++
  fieldReq "metrics.swap.used" s.used nonnegOk ++
  fieldReq "metrics.swap.free" s.free nonnegOk ++
  fieldReq "metrics.swap.percent" s.percent pctOk

def diskErrors (i : Nat) (d : RawDisk) : List String :=
  let pre := "metrics.disk." ++ toString i ++ "."
  fieldReq (pre ++ "device") d.device (fun _ => true) ++
  fieldReq (pre ++ "mountpoint") d.mountpoint (fun _ => true) ++
  fieldReq (pre ++ "fstype") d.fstype (fun _ => true) ++
  fieldReq (pre ++ "total") d.total posOk ++
  fieldReq (pre ++ "used") d.used nonnegOk ++
  fieldReq (pre ++ "free") d.free nonnegOk ++
  fieldReq (pre ++ "percent") d.percent pctOk

def diskListErrors : Nat → List RawDisk → List String
  | _, [] => []
  | i, d :: ds => diskErrors i d ++ diskListErrors (i + 1) ds

def networkErrors (n : RawNetwork) : List String :=
  fieldReq "metrics.network.bytes_sent" n.bytes_sent nonnegOk ++
  fieldReq "metrics.network.bytes_recv" n.bytes_recv nonnegOk ++
  fieldReq "metrics.network.packets_sent" n.packets_sent nonnegOk ++
  fieldReq "metrics.network.packets_recv" n.packets_recv nonnegOk ++
  fieldOpt "metrics.network.errin" n.errin nonnegOk ++
  fieldOpt "metrics.network.errout" n.errout nonnegOk ++
  fieldOpt "metrics.network.dropin" n.dropin nonnegOk ++
  fieldOpt "metrics.network.dropout" n.dropout nonnegOk

def processErrors (i : Nat) (p : RawProcess) : List String :=
  let pre := "metrics.top_processes." ++ toString i ++ "."
  fieldReq (pre ++ "pid") p.pid (fun _ => true) ++
  fieldReq (pre ++ "name") p.name (fun _ => true) ++
  fieldReq (pre ++ "cpu_percent") p.cpu_percent (fun q => decide (0 ≤ q)) ++
  fieldReq (pre ++ "memory_percent") p.memory_percent pctOk

def processListErrors : Nat → List RawProcess → List String
  | _, [] => []
  | i, p :: ps => processErrors i p ++ processListErrors (i + 1) ps

def sysErrors (m : RawSystemMetrics) : List String :=
  fieldReq "metrics.timestamp" m.timestamp validate_timestamp ++
  fieldReq "metrics.hostname" m.hostname (fun _ => true) ++
  (match m.cpu with
   | none => ["metrics.cpu"]
   | some c => cpuErrors c) ++
  (match m.memory with
   | none => ["metrics.memory"]
   | some mm => memoryErrors mm) ++
  (match m.swap with
   | none => ["metrics.swap"]
   | some s => swapErrors s) ++
  (match m.disk with
   | none => ["metrics.disk"]
   | some ds => diskListErrors 0 ds) ++
  (match m.network with
   | none => []
   | some n => networkErrors n) ++
  (match m.top_processes with
   | none => []
   | some ps => processListErrors 0 ps)

/-- All violated field locations of a candidate payload
(`MetricsPayload`, server.py:164-166: hostname has
`min_length=1, max_length=255`). -/
def payloadErrors (raw : RawPayload) : List String :=
  fieldReq "hostname" raw.hostname
    (fun h => decide (1 ≤ h.length) && decide (h.length ≤ 255)) ++
  (match raw.metrics with
   | none => ["metrics"]
   | some m => sysErrors m)

/-! ### Building the typed payload from an accepted candidate -/

def toCPU (r : RawCPU) : Option CPUMetrics := do
  let p ← r.percent
  let c ← r.count
  let cl ← r.count_logical
  pure ⟨p, c, cl, r.load_avg⟩

def toMemory (r : RawMemory) : Option MemoryMetrics := do
  let t ← r.total
  let a ← r.available
  let p ← r.percent
  let u ← r.used
  let f ← r.free
  pure ⟨t, a, p, u, f, r.buffers.getD 0, r.cached.getD 0⟩

def toSwap (r : RawSwap) : Option SwapMetrics := do
  let t ← r.total
  let u ← r.used
  let f ← r.free
  let p ← r.percent
  pure ⟨t, u, f, p⟩

def toDisk (r : RawDisk) : Option DiskMetrics := do
  let dev ← r.device
  let mp ← r.mountpoint
  let fs ← r.fstype
  let t ← r.total
  let u ← r.used
  let f ← r.free
  let p ← r.percent
  pure ⟨dev, mp, fs, t, u, f, p⟩

def toNetwork (r : RawNetwork) : Option NetworkMetrics := do
  let bs ← r.bytes_sent
  let br ← r.bytes_recv
  let ps ← r.packets_sent
  let pr ← r.packets_recv
  pure ⟨bs, br, ps, pr, r.errin.getD 0, r.errout.getD 0,
        r.dropin.getD 0, r.dropout.getD 0⟩

def toProcess (r : RawProcess) : Option ProcessMetrics := do
  let pid ← r.pid
  let nm ← r.name
  let cp ← r.cpu_percent
  let mp ← r.memory_percent
  pure ⟨pid, nm, cp, mp⟩

def toSystem (m : RawSystemMetrics) : Option SystemMetrics := do
  let ts ← m.timestamp
  let hn ← m.hostname
  let c ← m.cpu
  let cpu ← toCPU c
  let mm ← m.memory
  let mem ← toMemory mm
  let sw ← m.swap
  let swap ← toSwap sw
  let ds ← m.disk
  let disk ← ds.mapM toDisk
  let net ← match m.network with
            | none => pure none
            | some n => (toNetwork n).map some
  let procs ← match m.top_processes with
              | none => pure none
              | some ps => (ps.mapM toProcess).map some
  pure ⟨ts, hn, cpu, mem, swap, disk, net, procs, m.error⟩

def toPayload (raw : RawPayload) : Option MetricsPayload := do
  let hn ← raw.hostname
  let m ← raw.metrics
  let sys ← toSystem m
  pure ⟨hn, sys⟩

/-! ## The embedded store (`MetricsDatabase`, server.py:168-346)

A row of the `metrics` table.  The JSON-serialized columns (`disk_data`,
`network_data`, `raw_data`, server.py:236-238) are embedded as the
structured values themselves: `json.dumps` is injective on them, so the
column holds the value verbatim.  `created_at` is the sqlite
`CURRENT_TIMESTAMP` default, i.e. the server clock at insertion. -/

structure StoredRow where
  id : Nat
  timestamp : String
  hostname : String
  cpu_percent : ℚ
  memory_percent : ℚ
  memory_total : ℤ
  memory_used : ℤ
  swap_percent : ℚ
  disk_data : List DiskMetrics
  network_data : Option NetworkMetrics
  raw_data : MetricsPayload
  created_at : ℤ
deriving DecidableEq

/-- The `metrics` table in insertion order plus the AUTOINCREMENT
counter. -/
structure DBState where
  nextId : Nat
  rows : List StoredRow
deriving DecidableEq

/-- A freshly initialized store (`_init_database`): empty table,
AUTOINCREMENT starts at 1. -/
def initState : DBState := ⟨1, []⟩

/-- The row inserted by `store_metrics` (server.py:240-257). -/
def mkRow (id : Nat) (now : ℤ) (p : MetricsPayload) : StoredRow :=
  { id := id
    timestamp := p.metrics.timestamp
    hostname := p.hostname
    cpu_percent := p.metrics.cpu.percent
    memory_percent := p.metrics.memory.percent
    memory_total := p.metrics.memory.total
    memory_used := p.metrics.memory.used
    swap_percent := p.metrics.swap.percent
    disk_data := p.metrics.disk
    network_data := p.metrics.network
    raw_data := p
    created_at := now }

/-- Method `MetricsDatabase.store_metrics` (server.py:228-264): insert one row
and commit, returning `True`; on any exception the except-branch logs and
returns `False`, leaving the table unchanged. -/
def store_metrics (fault : Bool) (st : DBState) (now : ℤ)
    (p : MetricsPayload) : DBState × Bool :=
  if fault then (st, false)
  else (⟨st.nextId + 1, st.rows ++ [mkRow st.nextId now p]⟩, true)

/-- The hostname restriction of the read queries: `if hostname:` in
Python is false for both `None` and the empty string, in which case the
`WHERE hostname = ?` clause is omitted (server.py:272-285, 312-315). -/
def hostnameFilter (hostname : Option String) (r : StoredRow) : Bool :=
  match hostname with
  | none => true
  | some h => if h.isEmpty then true else r.hostname == h

/-- The rows matching the shared WHERE clause of `get_recent_metrics` and
`get_summary_stats`: `datetime(created_at) > datetime(now - hours)`,
optionally AND-ed with the hostname match. -/
def matchingRows (st : DBState) (now : ℤ) (hostname : Option String)
    (hours : ℤ) : List StoredRow :=
  st.rows.filter
    (fun r => hostnameFilter hostname r && decide (now - hours * 3600 < r.created_at))

/-- Ordering `ORDER BY created_at DESC`: newest first. -/
def newerFirst (a b : StoredRow) : Prop := b.created_at ≤ a.created_at

instance : DecidableRel newerFirst :=
  fun a b => inferInstanceAs (Decidable (b.created_at ≤ a.created_at))

instance : IsTotal StoredRow newerFirst :=
  ⟨fun a b => le_total b.created_at a.created_at⟩

instance : IsTrans StoredRow newerFirst :=
  ⟨fun _ _ _ h1 h2 => le_trans h2 h1⟩

/-- Method `MetricsDatabase.get_recent_metrics` (server.py:266-291): the matching
rows, `ORDER BY created_at DESC LIMIT 1000`; on any exception the
except-branch returns `[]`. -/
def get_recent_metrics (fault : Bool) (st : DBState) (now : ℤ)
    (hostname : Option String) (hours : ℤ) : List StoredRow :=
  if fault then []
  else ((matchingRows st now hostname hours).insertionSort newerFirst).take 1000

/-- SQL `AVG` over a non-NULL column: `NULL` on the empty set. -/
def avgQ (l : List ℚ) : Option ℚ :=
  if l.isEmpty then none else some (l.sum / (l.length : ℚ))

/-- The single aggregate row computed by `get_summary_stats`
(server.py:299-310). -/
structure SummaryStats where
  total_records : Nat
  avg_cpu : Option ℚ
  max_cpu : Option ℚ
  avg_memory : Option ℚ
  max_memory : Option ℚ
  avg_swap : Option ℚ
  max_swap : Option ℚ
deriving DecidableEq

/-- Method `MetricsDatabase.get_summary_stats` (server.py:293-322):
`COUNT/AVG/MAX` over the matching rows in one aggregate pass; on any
exception the except-branch returns the empty dict, embedded as `none`. -/
def get_summary_stats (fault : Bool) (st : DBState) (now : ℤ)
    (hostname : Option String) (hours : ℤ) : Option SummaryStats :=
  if fault then none
  else
    let ms := matchingRows st now hostname hours
    some { total_records := ms.length
           avg_cpu := avgQ (ms.map (fun r => r.cpu_percent))
           max_cpu := (ms.map (fun r => r.cpu_percent)).max?
           avg_memory := avgQ (ms.map (fun r => r.memory_percent))
           max_memory := (ms.map (fun r => r.memory_percent)).max?
           avg_swap := avgQ (ms.map (fun r => r.swap_percent))
           max_swap := (ms.map (fun r => r.swap_percent)).max? }

/-- Method `MetricsDatabase.cleanup_old_data` (server.py:324-346):
`DELETE FROM metrics WHERE datetime(created_at) < datetime(now - days)`,
returning the affected-row count; on any exception the except-branch
returns 0 with the table unchanged. -/
def cleanup_old_data (fault : Bool) (st : DBState) (now : ℤ)
    (days_to_keep : ℤ) : DBState × ℤ :=
  if fault then (st, 0)
  else
    let cutoff := now - days_to_keep * 86400
    (⟨st.nextId, st.rows.filter (fun r => !decide (r.created_at < cutoff))⟩,
     ((st.rows.filter (fun r => decide (r.created_at < cutoff))).length : ℤ))

/-! ## The `/ingest` endpoint (server.py:405-455)

FastAPI validates the body against `MetricsPayload` before the handler
runs; a validation failure is answered with a 4xx carrying the field
detail and the handler — hence the store — is never reached. -/

inductive IngestResult where
  | validationError (fields : List String)
  | stored (hostname : String) (timestamp : String)
  | storageError
deriving DecidableEq

def ingest (fault : Bool) (st : DBState) (now : ℤ) (raw : RawPayload) :
    DBState × IngestResult :=
  match payloadErrors raw, toPayload raw with
  | [], some p =>
      let res := store_metrics fault st now p
      if res.2 then (res.1, .stored p.hostname p.metrics.timestamp)
      else (res.1, .storageError)
  | errs, _ => (st, .validationError errs)

/-! ## Concrete fixtures -/

def sampleSystem : SystemMetrics :=
  { timestamp := "2024-01-01T00:00:00Z"
    hostname := "host-a"
    cpu := ⟨55, 4, 8, none⟩
    memory := ⟨1000, 400, 70, 600, 400, 0, 0⟩
    swap := ⟨100, 10, 90, 10⟩
    disk := [⟨"/dev/sda1", "/", "ext4", 500, 200, 300, 40⟩]
    network := none
    top_processes := none
    error := none }

def samplePayload : MetricsPayload := ⟨"host-a", sampleSystem⟩

/-- A two-row store: ids 1 and 2, ingested at clock 10 and 3700. -/
def sampleState : DBState :=
  ⟨3, [mkRow 1 10 samplePayload, mkRow 2 3700 samplePayload]⟩

/-! ## Helper lemmas -/

theorem length_filter_not_add {α : Type} (p : α → Bool) (l : List α) :
    (l.filter (fun a => !p a)).length + (l.filter p).length = l.length := by
  induction l with
  | nil => rfl
  | cons a l ih =>
      by_cases h : p a = true <;>
        simp [List.filter_cons, h] <;> omega

/-! ## Claims -/

/-- C8. An internal backend failure never escapes the storage interface:
`store_metrics` returns `False` with the prior state unchanged,
`get_recent_metrics` returns the empty list, `get_summary_stats` returns
the empty result, and `cleanup_old_data` returns 0 deletions with the
state unchanged. -/
theorem backend_failure_defaults (st : DBState) (now : ℤ) (p : MetricsPayload)
    (hn : Option String) (hours d : ℤ) :
    store_metrics true st now p = (st, false)
    ∧ get_recent_metrics true st now hn hours = []
    ∧ get_summary_stats true st now hn hours = none
    ∧ cleanup_old_data true st now d = (st, 0) :=
  ⟨rfl, rfl, rfl, rfl⟩

/-- C7. The cleanup is idempotent: `cleanup_old_data` run twice at the same clock with
no intervening writes, the second run deletes nothing and returns 0. -/
theorem cleanup_idempotent (st : DBState) (now d : ℤ) :
    cleanup_old_data false (cleanup_old_data false st now d).1 now d
      = ((cleanup_old_data false st now d).1, 0) := by
  simp only [cleanup_old_data, if_neg (Bool.false_ne_true), Prod.mk.injEq,
    DBState.mk.injEq, true_and, eq_self_iff_true]
  refine ⟨?_, ?_⟩
  · rw [List.filter_filter]
    congr 1
    funext r
    cases h : decide (r.created_at < now - d * 86400) <;> simp [h]
  · rw [List.filter_filter]
    have : (fun (r : StoredRow) =>
        decide (r.created_at < now - d * 86400) &&
          !decide (r.created_at < now - d * 86400)) = fun _ => false := by
      funext r
      exact Bool.and_not_self _
    rw [this]
    simp

/-- C10. When the matching set is empty, the summary query succeeds with
count 0 and NULL avg/max aggregates — distinct from the empty result
(`none`) returned on a backend failure. -/
theorem summary_empty_set_success (st : DBState) (now : ℤ)
    (hn : Option String) (hours : ℤ)
    (h : matchingRows st now hn hours = []) :
    get_summary_stats false st now hn hours
      = some ⟨0, none, none, none, none, none, none⟩
    ∧ get_summary_stats false st now hn hours ≠ none := by
  constructor
  · simp [get_summary_stats, h, avgQ]
  · simp [get_summary_stats]

/-- C10 witness: on the empty store the summary is the zero/NULL row. -/
theorem summary_empty_set_success_witness :
    get_summary_stats false initState 0 (some "host-a") 24
      = some ⟨0, none, none, none, none, none, none⟩ :=
  (summary_empty_set_success initState 0 (some "host-a") 24 (by decide)).1

/-- C4. The retention sweep deletes all and only rows with `created_at`
older than `now - days*86400`, returns the number removed, and every row
at or after the cutoff survives unchanged, whatever its client-supplied
`timestamp` column holds. -/
theorem cleanup_deletes_exactly_old (st : DBState) (now d : ℤ) :
    (cleanup_old_data false st now d).1.rows
      = st.rows.filter (fun r => !decide (r.created_at < now - d * 86400))
    ∧ (cleanup_old_data false st now d).2
      = ((st.rows.filter
            (fun r => decide (r.created_at < now - d * 86400))).length : ℤ)
    ∧ (∀ r ∈ st.rows, now - d * 86400 ≤ r.created_at →
        r ∈ (cleanup_old_data false st now d).1.rows)
    ∧ (∀ r ∈ (cleanup_old_data false st now d).1.rows,
        r ∈ st.rows ∧ now - d * 86400 ≤ r.created_at)
    ∧ (st.rows.length : ℤ)
      = ((cleanup_old_data false st now d).1.rows.length : ℤ)
          + (cleanup_old_data false st now d).2 := by
  refine ⟨rfl, rfl, ?_, ?_, ?_⟩
  · intro r hr hcut
    simp only [cleanup_old_data, if_neg (Bool.false_ne_true), List.mem_filter]
    exact ⟨hr, by simpa using not_lt.mpr hcut⟩
  · intro r hr
    simp only [cleanup_old_data, if_neg (Bool.false_ne_true),
      List.mem_filter] at hr
    exact ⟨hr.1, not_lt.mp (by simpa using hr.2)⟩
  · simp only [cleanup_old_data, if_neg (Bool.false_ne_true)]
    have := length_filter_not_add
      (fun r : StoredRow => decide (r.created_at < now - d * 86400)) st.rows
    omega

/-- C4 witness: at clock 3700 with a 0-day retention, the row ingested at
clock 10 is deleted and the row ingested at clock 3700 survives. -/
theorem cleanup_deletes_exactly_old_witness :
    mkRow 2 3700 samplePayload ∈ (cleanup_old_data false sampleState 3700 0).1.rows
    ∧ (cleanup_old_data false sampleState 3700 0).1.rows
        = [mkRow 2 3700 samplePayload]
    ∧ (cleanup_old_data false sampleState 3700 0).2 = 1 :=
  ⟨(cleanup_deletes_exactly_old sampleState 3700 0).2.2.1
      (mkRow 2 3700 samplePayload) (by decide) (by decide),
   by decide, by decide⟩

/-- C2. The recent query returns at most 1000 rows, each with
`created_at` strictly inside the last `hours` window, restricted to the
exact hostname when a (non-empty) hostname is given, ordered
newest-first. -/
theorem query_recent_window_hostname_order_cap (st : DBState) (now : ℤ)
    (hn : Option String) (hours : ℤ) :
    (get_recent_metrics false st now hn hours).length ≤ 1000
    ∧ (∀ r ∈ get_recent_metrics false st now hn hours,
        now - hours * 3600 < r.created_at)
    ∧ (∀ h, hn = some h → h.isEmpty = false →
        ∀ r ∈ get_recent_metrics false st now hn hours, r.hostname = h)
    ∧ (get_recent_metrics false st now hn hours).Sorted newerFirst := by
  have hres : get_recent_metrics false st now hn hours
      = ((matchingRows st now hn hours).insertionSort newerFirst).take 1000 := rfl
  refine ⟨?_, ?_, ?_, ?_⟩
  · rw [hres]
    exact List.length_take_le _ _
  · intro r hr
    rw [hres] at hr
    have h1 := List.mem_of_mem_take hr
    rw [List.mem_insertionSort] at h1
    have h2 := (List.mem_filter.mp h1).2
    simp only [Bool.and_eq_true, decide_eq_true_eq] at h2
    exact h2.2
  · intro h hh hne r hr
    subst hh
    rw [hres] at hr
    have h1 := List.mem_of_mem_take hr
    rw [List.mem_insertionSort] at h1
    have h2 := (List.mem_filter.mp h1).2
    simp only [hostnameFilter, hne, Bool.and_eq_true, decide_eq_true_eq] at h2
    have h3 := h2.1
    rw [if_neg Bool.false_ne_true] at h3
    exact eq_of_beq h3
  · rw [hres]
    exact List.Pairwise.sublist (List.take_sublist _ _)
      (List.sorted_insertionSort newerFirst _)

/-- C2 witness: concrete two-row store, hostname filter applied. -/
theorem query_recent_window_hostname_order_cap_witness :
    (get_recent_metrics false sampleState 3700 (some "host-a") 2).length ≤ 1000
    ∧ (mkRow 2 3700 samplePayload).hostname = "host-a" :=
  ⟨(query_recent_window_hostname_order_cap sampleState 3700 (some "host-a") 2).1,
   (query_recent_window_hostname_order_cap sampleState 3700 (some "host-a") 2).2.2.1
     "host-a" rfl (by decide) (mkRow 2 3700 samplePayload) (by decide)⟩

/-- C5. The summary count equals the size of the full (uncapped) matching
set; `get_recent_metrics` returns that many rows when the set fits under
the 1000 cap and exactly 1000 rows when it is larger. -/
theorem summary_count_matches_uncapped (st : DBState) (now : ℤ)
    (hn : Option String) (hours : ℤ) :
    (get_summary_stats false st now hn hours).map (fun s => s.total_records)
      = some (matchingRows st now hn hours).length
    ∧ ((matchingRows st now hn hours).length ≤ 1000 →
        (get_recent_metrics false st now hn hours).length
          = (matchingRows st now hn hours).length)
    ∧ (1000 < (matchingRows st now hn hours).length →
        (get_recent_metrics false st now hn hours).length = 1000) := by
  have hres : get_recent_metrics false st now hn hours
      = ((matchingRows st now hn hours).insertionSort newerFirst).take 1000 := rfl
  have hlen : ((matchingRows st now hn hours).insertionSort newerFirst).length
      = (matchingRows st now hn hours).length :=
    (List.perm_insertionSort newerFirst _).length_eq
  refine ⟨rfl, ?_, ?_⟩
  · intro hle
    rw [hres, List.length_take, hlen]
    omega
  · intro hgt
    rw [hres, List.length_take, hlen]
    omega

/-- C5 witness: two matching rows, under the cap. -/
theorem summary_count_matches_uncapped_witness :
    (matchingRows sampleState 3700 (some "host-a") 2).length ≤ 1000
    ∧ (get_recent_metrics false sampleState 3700 (some "host-a") 2).length
        = (matchingRows sampleState 3700 (some "host-a") 2).length :=
  ⟨by decide,
   (summary_count_matches_uncapped sampleState 3700 (some "host-a") 2).2.1
     (by decide)⟩

/-- C1 counterexample: with window 0 the claim fails.  The query filter is
strict (`datetime(created_at) > datetime(now - window)`), so a record
stored at the current clock instant is excluded when `window = 0`: the
round-trip query returns no record at all. -/
theorem store_then_query_window_zero_cex :
    get_recent_metrics false (store_metrics false initState 0 samplePayload).1 0
      (some "host-a") 0 = [] := by decide

/-- C1 (amended: window ≥ 1 hour, starting from a store holding no other
record).  Storing a valid payload and immediately querying with its
hostname returns exactly the one new record, whose denormalized scalar
columns equal the payload's corresponding fields. -/
theorem store_then_query_roundtrip (p : MetricsPayload) (now w : ℤ)
    (hw : 1 ≤ w) :
    get_recent_metrics false (store_metrics false initState now p).1 now
        (some p.hostname) w
      = [mkRow 1 now p]
    ∧ (mkRow 1 now p).cpu_percent = p.metrics.cpu.percent
    ∧ (mkRow 1 now p).memory_percent = p.metrics.memory.percent
    ∧ (mkRow 1 now p).memory_total = p.metrics.memory.total
    ∧ (mkRow 1 now p).memory_used = p.metrics.memory.used
    ∧ (mkRow 1 now p).swap_percent = p.metrics.swap.percent := by
  refine ⟨?_, rfl, rfl, rfl, rfl, rfl⟩
  have hrow : (store_metrics false initState now p).1.rows = [mkRow 1 now p] := rfl
  have hcut : decide (now - w * 3600 < (mkRow 1 now p).created_at) = true := by
    simp only [mkRow, decide_eq_true_eq]
    omega
  have hhost : hostnameFilter (some p.hostname) (mkRow 1 now p) = true := by
    unfold hostnameFilter
    by_cases he : p.hostname.isEmpty = true
    · simp [he]
    · simp only [Bool.not_eq_true] at he
      simp [he, mkRow]
  have hfil : matchingRows (store_metrics false initState now p).1 now
      (some p.hostname) w = [mkRow 1 now p] := by
    unfold matchingRows
    rw [hrow]
    simp [List.filter_cons, hcut, hhost]
  have hres : get_recent_metrics false (store_metrics false initState now p).1
      now (some p.hostname) w
      = ((matchingRows (store_metrics false initState now p).1 now
          (some p.hostname) w).insertionSort newerFirst).take 1000 := rfl
  rw [hres, hfil]
  rfl

/-- C1 witness at a concrete payload, clock 5 and a 24-hour window. -/
theorem store_then_query_roundtrip_witness :
    get_recent_metrics false (store_metrics false initState 5 samplePayload).1 5
      (some "host-a") 24 = [mkRow 1 5 samplePayload] :=
  (store_then_query_roundtrip samplePayload 5 24 (by omega)).1

/-- C6 counterexample: a timestamp without any explicit time zone is
accepted by `validate_timestamp`, because `datetime.fromisoformat` does
not require an offset. -/
theorem timestamp_no_zone_accepted_cex :
    validate_timestamp "2024-01-01T00:00:00" = true
    ∧ hasExplicitZoneSpec "2024-01-01T00:00:00" = false := by decide

/-- C6 (amended: an explicit zone is not required).  A present timestamp
passes validation only if it parses as ISO-8601 after `Z` normalization
(otherwise `metrics.timestamp` is reported); the stored row keeps the
client timestamp verbatim while `created_at` is the server clock at
ingestion. -/
theorem timestamp_accept_parse_store (m : RawSystemMetrics) (ts : String)
    (hts : m.timestamp = some ts) (st : DBState) (now : ℤ)
    (p : MetricsPayload) :
    ("metrics.timestamp" ∉ sysErrors m → validate_timestamp ts = true)
    ∧ (validate_timestamp ts = false → "metrics.timestamp" ∈ sysErrors m)
    ∧ (store_metrics false st now p).1.rows = st.rows ++ [mkRow st.nextId now p]
    ∧ (mkRow st.nextId now p).timestamp = p.metrics.timestamp
    ∧ (mkRow st.nextId now p).created_at = now := by
  have hmem : validate_timestamp ts = false →
      "metrics.timestamp" ∈ sysErrors m := by
    intro hv
    unfold sysErrors
    rw [hts]
    simp [fieldReq, hv]
  refine ⟨?_, hmem, rfl, rfl, rfl⟩
  intro hnotmem
  by_contra hne
  exact hnotmem (hmem (by simpa using hne))

def sampleBadSys : RawSystemMetrics :=
  ⟨some "not-a-date", some "host-a", none, none, none, none, none, none, none⟩

/-- C6 witness: an unparseable timestamp is reported, and a store at
clock 7 records `created_at = 7` with the timestamp kept verbatim. -/
theorem timestamp_accept_parse_store_witness :
    "metrics.timestamp" ∈ sysErrors sampleBadSys
    ∧ (store_metrics false initState 7 samplePayload).1.rows
        = initState.rows ++ [mkRow initState.nextId 7 samplePayload]
    ∧ (mkRow initState.nextId 7 samplePayload).created_at = 7 :=
  ⟨(timestamp_accept_parse_store sampleBadSys "not-a-date" rfl initState 7
      samplePayload).2.1 (by decide),
   (timestamp_accept_parse_store sampleBadSys "not-a-date" rfl initState 7
      samplePayload).2.2.1,
   (timestamp_accept_parse_store sampleBadSys "not-a-date" rfl initState 7
      samplePayload).2.2.2.2⟩

/-- The data-model invariants on a store state: ids strictly increasing (hence
unique) in insertion order, `created_at` non-decreasing with insertion
order, and the AUTOINCREMENT counter ahead of every id. -/
def goodState (st : DBState) : Prop :=
  st.rows.Pairwise (fun a b => a.id < b.id)
  ∧ st.rows.Pairwise (fun a b => a.created_at ≤ b.created_at)
  ∧ ∀ r ∈ st.rows, r.id < st.nextId

/-- C9. Under single-writer discipline (the write happens at a clock not
earlier than any stored `created_at`), `store_metrics` and
`cleanup_old_data` preserve the id/created_at invariants — with or
without a backend fault.  The read operations return values without
touching the state, so they preserve every state property. -/
theorem store_invariants_preserved (st : DBState) (now d : ℤ)
    (p : MetricsPayload) (fault : Bool)
    (hgood : goodState st) (hclock : ∀ r ∈ st.rows, r.created_at ≤ now) :
    goodState (store_metrics fault st now p).1
    ∧ goodState (cleanup_old_data fault st now d).1 := by
  obtain ⟨hid, hca, hbound⟩ := hgood
  constructor
  · cases fault with
    | true => exact ⟨hid, hca, hbound⟩
    | false =>
        have hr : (store_metrics false st now p).1.rows
            = st.rows ++ [mkRow st.nextId now p] := rfl
        have hn : (store_metrics false st now p).1.nextId = st.nextId + 1 := rfl
        refine ⟨?_, ?_, ?_⟩
        · rw [hr, List.pairwise_append]
          refine ⟨hid, List.pairwise_singleton _ _, ?_⟩
          intro a ha b hb
          rw [List.mem_singleton] at hb
          subst hb
          exact hbound a ha
        · rw [hr, List.pairwise_append]
          refine ⟨hca, List.pairwise_singleton _ _, ?_⟩
          intro a ha b hb
          rw [List.mem_singleton] at hb
          subst hb
          exact hclock a ha
        · intro r hrm
          rw [hr, List.mem_append] at hrm
          rw [hn]
          rcases hrm with h | h
          · exact Nat.lt_trans (hbound r h) (Nat.lt_succ_self _)
          · rw [List.mem_singleton] at h
            subst h
            exact Nat.lt_succ_self _
  · cases fault with
    | true => exact ⟨hid, hca, hbound⟩
    | false =>
        have hr : (cleanup_old_data false st now d).1.rows
            = st.rows.filter
                (fun r => !decide (r.created_at < now - d * 86400)) := rfl
        have hn : (cleanup_old_data false st now d).1.nextId = st.nextId := rfl
        refine ⟨?_, ?_, ?_⟩
        · rw [hr]
          exact List.Pairwise.filter _ hid
        · rw [hr]
          exact List.Pairwise.filter _ hca
        · intro r hrm
          rw [hr] at hrm
          rw [hn]
          exact hbound r (List.mem_filter.mp hrm).1

/-- C9 witness: the invariants hold on the two-row store and survive a
write at clock 4000. -/
theorem store_invariants_preserved_witness :
    goodState (store_metrics false sampleState 4000 samplePayload).1 :=
  (store_invariants_preserved sampleState 4000 0 samplePayload false
    ⟨by decide, by decide, by decide⟩ (by decide)).1

/-- C3. An invalid candidate payload is rejected before storage: the
store state is unchanged and the structured failure carries the violated
field locations; resubmitting the same payload (at any later clock, with
or without a backend fault) rejects identically.  Each violated
constraint contributes its own field location — missing required fields,
hostname length bounds, unparseable timestamps and out-of-range numerics
are all named, independently of one another. -/
theorem validation_rejects_and_names_fields (raw : RawPayload) (st : DBState)
    (now now2 : ℤ) (fault fault2 : Bool)
    (h : payloadErrors raw ≠ []) :
    ingest fault st now raw = (st, .validationError (payloadErrors raw))
    ∧ ingest fault2 (ingest fault st now raw).1 now2 raw
        = ((ingest fault st now raw).1, .validationError (payloadErrors raw))
    ∧ (raw.hostname = none → "hostname" ∈ payloadErrors raw)
    ∧ (∀ hn, raw.hostname = some hn → (hn.length < 1 ∨ 255 < hn.length) →
        "hostname" ∈ payloadErrors raw)
    ∧ (raw.metrics = none → "metrics" ∈ payloadErrors raw)
    ∧ (∀ m, raw.metrics = some m →
        (m.timestamp = none → "metrics.timestamp" ∈ payloadErrors raw)
        ∧ (∀ ts, m.timestamp = some ts → validate_timestamp ts = false →
            "metrics.timestamp" ∈ payloadErrors raw)
        ∧ (m.cpu = none → "metrics.cpu" ∈ payloadErrors raw)
        ∧ (∀ c, m.cpu = some c → c.percent = none →
            "metrics.cpu.percent" ∈ payloadErrors raw)
        ∧ (∀ c q, m.cpu = some c → c.percent = some q → pctOk q = false →
            "metrics.cpu.percent" ∈ payloadErrors raw)
        ∧ (∀ c x, m.cpu = some c → c.count = some x → posOk x = false →
            "metrics.cpu.count" ∈ payloadErrors raw)
        ∧ (∀ c x, m.cpu = some c → c.count_logical = some x →
            posOk x = false → "metrics.cpu.count_logical" ∈ payloadErrors raw)
        ∧ (m.memory = none → "metrics.memory" ∈ payloadErrors raw)
        ∧ (∀ mm x, m.memory = some mm → mm.total = some x → posOk x = false →
            "metrics.memory.total" ∈ payloadErrors raw)
        ∧ (∀ mm q, m.memory = some mm → mm.percent = some q →
            pctOk q = false → "metrics.memory.percent" ∈ payloadErrors raw)
        ∧ (m.swap = none → "metrics.swap" ∈ payloadErrors raw)
        ∧ (∀ sw q, m.swap = some sw → sw.percent = some q → pctOk q = false →
            "metrics.swap.percent" ∈ payloadErrors raw)
        ∧ (m.disk = none → "metrics.disk" ∈ payloadErrors raw)) := by
  have key : ∀ (f : Bool) (s : DBState) (n : ℤ),
      ingest f s n raw = (s, .validationError (payloadErrors raw)) := by
    intro f s n
    cases hpe : payloadErrors raw with
    | nil => exact absurd hpe h
    | cons e es =>
        unfold ingest
        rw [hpe]
  refine ⟨key fault st now, ?_, ?_, ?_, ?_, ?_⟩
  · rw [key fault st now]
    exact key fault2 st now2
  · intro h0
    unfold payloadErrors
    rw [h0]
    simp [fieldReq]
  · intro hn hsome hlen
    have hb : (decide (1 ≤ hn.length) && decide (hn.length ≤ 255)) = false := by
      rcases hlen with h1 | h1 <;> simp <;> omega
    unfold payloadErrors
    rw [hsome]
    simp [fieldReq, hb]
  · intro h0
    unfold payloadErrors
    rw [h0]
    simp [fieldReq]
  · intro m hm
    have lift : ∀ x : String, x ∈ sysErrors m → x ∈ payloadErrors raw := by
      intro x hx
      unfold payloadErrors
      rw [hm]
      simp [List.mem_append, hx]
    refine ⟨?_, ?_, ?_, ?_, ?_, ?_, ?_, ?_, ?_, ?_, ?_, ?_, ?_⟩
    · intro h0
      refine lift _ ?_
      unfold sysErrors
      rw [h0]
      simp [fieldReq]
    · intro ts hts hbad
      refine lift _ ?_
      unfold sysErrors
      rw [hts]
      simp [fieldReq, hbad]
    · intro h0
      refine lift _ ?_
      unfold sysErrors
      rw [h0]
      simp [fieldReq]
    · intro c hc h0
      refine lift _ ?_
      have hsub : "metrics.cpu.percent" ∈ cpuErrors c := by
        unfold cpuErrors
        rw [h0]
        simp [fieldReq]
      unfold sysErrors
      rw [hc]
      simp [List.mem_append, hsub]
    · intro c q hc hq hbad
      refine lift _ ?_
      have hsub : "metrics.cpu.percent" ∈ cpuErrors c := by
        unfold cpuErrors
        rw [hq]
        simp [fieldReq, hbad]
      unfold sysErrors
      rw [hc]
      simp [List.mem_append, hsub]
    · intro c x hc hx hbad
      refine lift _ ?_
      have hsub : "metrics.cpu.count" ∈ cpuErrors c := by
        unfold cpuErrors
        rw [hx]
        simp [fieldReq, hbad]
      unfold sysErrors
      rw [hc]
      simp [List.mem_append, hsub]
    · intro c x hc hx hbad
      refine lift _ ?_
      have hsub : "metrics.cpu.count_logical" ∈ cpuErrors c := by
        unfold cpuErrors
        rw [hx]
        simp [fieldReq, hbad]
      unfold sysErrors
      rw [hc]
      simp [List.mem_append, hsub]
    · intro h0
      refine lift _ ?_
      unfold sysErrors
      rw [h0]
      simp [fieldReq]
    · intro mm x hmm hx hbad
      refine lift _ ?_
      have hsub : "metrics.memory.total" ∈ memoryErrors mm := by
        unfold memoryErrors
        rw [hx]
        simp [fieldReq, hbad]
      unfold sysErrors
      rw [hmm]
      simp [List.mem_append, hsub]
    · intro mm q hmm hq hbad
      refine lift _ ?_
      have hsub : "metrics.memory.percent" ∈ memoryErrors mm := by
        unfold memoryErrors
        rw [hq]
        simp [fieldReq, hbad]
      unfold sysErrors
      rw [hmm]
      simp [List.mem_append, hsub]
    · intro h0
      refine lift _ ?_
      unfold sysErrors
      rw [h0]
      simp [fieldReq]
    · intro sw q hsw hq hbad
      refine lift _ ?_
      have hsub : "metrics.swap.percent" ∈ swapErrors sw := by
        unfold swapErrors
        rw [hq]
        simp [fieldReq, hbad]
      unfold sysErrors
      rw [hsw]
      simp [List.mem_append, hsub]
    · intro h0
      refine lift _ ?_
      unfold sysErrors
      rw [h0]
      simp [fieldReq]

/-- A candidate violating several constraints at once: hostname missing,
timestamp unparseable, cpu.percent and memory.percent out of range,
cpu.count not positive, swap and disk missing. -/
def badRaw : RawPayload :=
  { hostname := none
    metrics := some
      { timestamp := some "not-a-date"
        hostname := some "host-a"
        cpu := some ⟨some 150, some 0, some 8, none⟩
        memory := some ⟨some 1000, some 400, some 150, some 600, some 400,
                        none, none⟩
        swap := none
        disk := none
        network := none
        top_processes := none
        error := none } }

/-- C3 witness: the multi-violation candidate is rejected with state
unchanged, and every one of its violated fields is named. -/
theorem validation_rejects_and_names_fields_witness :
    payloadErrors badRaw ≠ []
    ∧ ingest false initState 0 badRaw
        = (initState, .validationError (payloadErrors badRaw))
    ∧ "hostname" ∈ payloadErrors badRaw
    ∧ "metrics.timestamp" ∈ payloadErrors badRaw
    ∧ "metrics.cpu.percent" ∈ payloadErrors badRaw
    ∧ "metrics.cpu.count" ∈ payloadErrors badRaw
    ∧ "metrics.memory.percent" ∈ payloadErrors badRaw
    ∧ "metrics.swap" ∈ payloadErrors badRaw
    ∧ "metrics.disk" ∈ payloadErrors badRaw := by
  have T := validation_rejects_and_names_fields badRaw initState 0 0 false false
    (by decide)
  have N := T.2.2.2.2.2 _ rfl
  exact ⟨by decide, T.1, T.2.2.1 rfl,
    N.2.1 _ rfl (by decide),
    N.2.2.2.2.1 _ _ rfl rfl (by decide),
    N.2.2.2.2.2.1 _ _ rfl rfl (by decide),
    N.2.2.2.2.2.2.2.2.2.1 _ _ rfl rfl (by decide),
    N.2.2.2.2.2.2.2.2.2.2.1 rfl,
    N.2.2.2.2.2.2.2.2.2.2.2.2 rfl⟩

end Metrics
